import Mathlib

/-!
Verification development for the mango-explorer client SDK core.

Shallow embedding of `mango/context.py` (configuration resolution, RPC
envelope unwrapping, confirmation polling, Context derivation),
`mango/idsjsonmarketlookup.py` (registry-backed market lookup) and the
`TransferSplTokensInstructionBuilder` contract pinned by
`tests/test_instructions.py`.

Python dictionaries are modelled as association lists in insertion order;
Solana `PublicKey` values are modelled by their base58 string form; code
that can raise returns `Except PyError`.
-/

/-- Solana addresses (`PublicKey`) are modelled by their base58 string form;
`PublicKey(s)` in the source parses and re-prints that form, so it is the
identity here, and equality of keys is string equality. -/
abbrev PublicKey := String

/-- JSON-ish values appearing in RPC response envelopes. -/
inductive JsonValue where
  | null
  | str (s : String)
  | num (n : Int)
  | obj (fields : List (String × JsonValue))

/-- Python exceptions the embedded code can raise.  `serverException` is the
generic `Exception("Error response from server: ...")` raised by
`unwrap_or_raise_exception`, carrying the interpolated message and code
values; `exception` is a generic `Exception` carrying its message text. -/
inductive PyError where
  | keyError (key : String)
  | typeError
  | nameError
  | indexError
  | serverException (message : JsonValue) (code : JsonValue)
  | exception (msg : String)

/-- Python dictionary subscripting `d[k]` on a string-keyed dict: the value,
or `KeyError` when the key is absent. -/
def keyGet {α : Type} (l : List (String × α)) (k : String) : Except PyError α :=
  match List.lookup k l with
  | some v => Except.ok v
  | none => Except.error (PyError.keyError k)

/-- Python subscripting `v[key]` with a string key on a JSON value: field of a
dict, `KeyError` when the field is absent, `TypeError` on any non-dict value
(e.g. `"oops"["message"]` raises TypeError: string indices must be
integers). -/
def JsonValue.subscript (v : JsonValue) (key : String) : Except PyError JsonValue :=
  match v with
  | JsonValue.obj fields => keyGet fields key
  | _ => Except.error PyError.typeError

/-- Python list indexing `l[i]`: the element, or `IndexError` out of range. -/
def indexGet {α : Type} (l : List α) (i : Nat) : Except PyError α :=
  match l.get? i with
  | some v => Except.ok v
  | none => Except.error PyError.indexError

/-- One group's entry in `MangoConstants[cluster]["mango_groups"]`. -/
structure GroupInfo where
  mango_group_pk : PublicKey

/-- One cluster's entry in `MangoConstants` (the parts `context.py` reads). -/
structure ClusterInfo where
  mango_program_id : PublicKey
  dex_program_id : PublicKey
  mango_groups : List (String × GroupInfo)

/-- The `MangoConstants` registry as read by `context.py`: the
`cluster_urls` map and the per-cluster entries.  `ids.json` itself is an
external opaque data source, so the registry is a parameter throughout. -/
structure MangoConstantsData where
  cluster_urls : List (String × String)
  clusters : List (String × ClusterInfo)

/-- The configuration fields of a `Context` (the connection handle, logger,
commitment, encoding and retry schedule carry no claim-relevant state; RPC
clients are modelled separately as oracles where a claim needs them). -/
structure Context where
  cluster : String
  cluster_url : String
  program_id : PublicKey
  dex_program_id : PublicKey
  group_name : String
  group_id : PublicKey

/-- `_OLD_3_TOKEN_GROUP_ID` from `context.py`. -/
def OLD_3_TOKEN_GROUP_ID : PublicKey := "7pVYhpKUHw88neQHxgExSH6cerMZ1Axx1ALQP9sxtvQV"

/-- `_OLD_3_TOKEN_PROGRAM_ID` from `context.py`. -/
def OLD_3_TOKEN_PROGRAM_ID : PublicKey := "JD3bq9hGdy38PuWQ4h2YJpELmHVGPPfFSuFkpzAd9zfu"

/-- `Context.__init__`: stores the fields, substituting the legacy program id
for whatever `program_id` was supplied when the supplied `group_id` is the
legacy 3-token group. -/
def Context.init (cluster cluster_url : String) (program_id dex_program_id : PublicKey)
    (group_name : String) (group_id : PublicKey) : Context :=
  let configured_program_id :=
    if group_id == OLD_3_TOKEN_GROUP_ID then OLD_3_TOKEN_PROGRAM_ID else program_id
  { cluster := cluster, cluster_url := cluster_url, program_id := configured_program_id,
    dex_program_id := dex_program_id, group_name := group_name, group_id := group_id }

/-- `Context.new_from_cluster`: recompute URL, program ids and group id from
the registry for the target cluster, keeping the group name. -/
def Context.new_from_cluster (mc : MangoConstantsData) (self : Context) (cluster : String) :
    Except PyError Context := do
  let cluster_url ← keyGet mc.cluster_urls cluster
  let ci ← keyGet mc.clusters cluster
  let gi ← keyGet ci.mango_groups self.group_name
  pure (Context.init cluster cluster_url ci.mango_program_id ci.dex_program_id
    self.group_name gi.mango_group_pk)

/-- `Context.new_from_cluster_url`: change only the RPC endpoint. -/
def Context.new_from_cluster_url (self : Context) (cluster_url : String) : Context :=
  Context.init self.cluster cluster_url self.program_id self.dex_program_id
    self.group_name self.group_id

/-- `Context.new_from_group_name`: resolve the new group id from the registry;
if this Context had the old 3-token group, reset the program id from the
registry before constructing. -/
def Context.new_from_group_name (mc : MangoConstantsData) (self : Context) (group_name : String) :
    Except PyError Context := do
  let ci ← keyGet mc.clusters self.cluster
  let gi ← keyGet ci.mango_groups group_name
  let program_id :=
    if self.group_id == OLD_3_TOKEN_GROUP_ID then ci.mango_program_id else self.program_id
  pure (Context.init self.cluster self.cluster_url program_id self.dex_program_id
    group_name gi.mango_group_pk)

/-- The loop in `new_from_group_id` that scans `mango_groups` for the name
whose `mango_group_pk` equals the given id, with the unknown-group sentinel
on a miss. -/
def lookupGroupNameByPk (groups : List (String × GroupInfo)) (group_id_str : String) : String :=
  match groups.find? (fun p => p.2.mango_group_pk == group_id_str) with
  | some p => p.1
  | none => "« Unknown Group »"

/-- `Context.new_from_group_id`: look the name up by id (sentinel on miss);
if this Context had the old 3-token group, reset the program id from the
registry before constructing. -/
def Context.new_from_group_id (mc : MangoConstantsData) (self : Context) (group_id : PublicKey) :
    Except PyError Context := do
  let ci ← keyGet mc.clusters self.cluster
  let actual_group_name := lookupGroupNameByPk ci.mango_groups group_id
  let program_id :=
    if self.group_id == OLD_3_TOKEN_GROUP_ID then ci.mango_program_id else self.program_id
  pure (Context.init self.cluster self.cluster_url program_id self.dex_program_id
    actual_group_name group_id)

/-- The group-id reconciliation block shared verbatim by `from_command_line`
and `from_context_command_line_parameters`: when a non-default group name
arrives with the default group id, resolve the id from the registry for that
name, otherwise keep the supplied id.  The module-level `default_group_name`
and `default_group_id` are parameters here (they are computed once at import
from environment variables and the registry). -/
def resolveGroupId (mc : MangoConstantsData) (cluster : String)
    (default_group_name : String) (default_group_id : PublicKey)
    (group_name : String) (group_id : PublicKey) : Except PyError PublicKey :=
  if group_name != default_group_name && group_id == default_group_id then do
    let ci ← keyGet mc.clusters cluster
    let gi ← keyGet ci.mango_groups group_name
    pure gi.mango_group_pk
  else
    pure group_id

/-- `Context.from_command_line`: the group-id reconciliation followed by the
constructor. -/
def Context.from_command_line (mc : MangoConstantsData)
    (default_group_name : String) (default_group_id : PublicKey)
    (cluster cluster_url : String) (program_id dex_program_id : PublicKey)
    (group_name : String) (group_id : PublicKey) : Except PyError Context := do
  let group_id ← resolveGroupId mc cluster default_group_name default_group_id
    group_name group_id
  pure (Context.init cluster cluster_url program_id dex_program_id group_name group_id)

/-- `Context.from_cluster_and_group_name`: everything from the registry. -/
def Context.from_cluster_and_group_name (mc : MangoConstantsData) (cluster group_name : String) :
    Except PyError Context := do
  let cluster_url ← keyGet mc.cluster_urls cluster
  let ci ← keyGet mc.clusters cluster
  let gi ← keyGet ci.mango_groups group_name
  pure (Context.init cluster cluster_url ci.mango_program_id ci.dex_program_id
    group_name gi.mango_group_pk)

/-- The parsed command-line parameters consumed by
`from_context_command_line_parameters`. -/
structure Args where
  cluster : String
  cluster_url : String
  program_id : PublicKey
  dex_program_id : PublicKey
  group_name : String
  group_id : PublicKey

/-- `Context.from_context_command_line_parameters`: the group-id reconciliation
of `from_command_line` followed by an inline legacy-program-id substitution
(the source repeats the two literal addresses here) before constructing. -/
def Context.from_context_command_line_parameters (mc : MangoConstantsData)
    (default_group_name : String) (default_group_id : PublicKey)
    (args : Args) : Except PyError Context := do
  let group_id ← resolveGroupId mc args.cluster default_group_name default_group_id
    args.group_name args.group_id
  let program_id :=
    if group_id == ("7pVYhpKUHw88neQHxgExSH6cerMZ1Axx1ALQP9sxtvQV" : PublicKey) then
      ("JD3bq9hGdy38PuWQ4h2YJpELmHVGPPfFSuFkpzAd9zfu" : PublicKey)
    else args.program_id
  pure (Context.init args.cluster args.cluster_url program_id args.dex_program_id
    args.group_name group_id)

/-- Python `response["error"] is str` tests object identity with the type
object `str` itself (it is not `isinstance`); a string VALUE is never that
type object, so on every JSON value the test is false. -/
def pyIsTheTypeStr (v : JsonValue) : Bool :=
  match v with
  | _ => false

/-- `Context.unwrap_or_raise_exception`: return `response["result"]` when no
`"error"` key is present; otherwise take the bare-string branch only when
`response["error"] is str` holds (it never does, see `pyIsTheTypeStr`), else
subscript the error value for `"message"` and `"code"` and raise the generic
server exception with them. -/
def Context.unwrap_or_raise_exception (response : List (String × JsonValue)) :
    Except PyError JsonValue :=
  match List.lookup "error" response with
  | some err =>
    if pyIsTheTypeStr err then
      Except.error (PyError.serverException err (JsonValue.num (-1)))
    else do
      let message ← err.subscript "message"
      let code ← err.subscript "code"
      Except.error (PyError.serverException message code)
  | none => keyGet response "result"

/-- Observable events of `wait_for_confirmation`: the 1-second sleep and the
poll of the confirmation RPC for loop index `wait`. -/
inductive PollEvent where
  | sleep
  | poll (wait : Nat)
deriving DecidableEq

/-- The loop of `Context.wait_for_confirmation`, structurally recursive on the
remaining iteration count.  Each iteration sleeps one second, polls
`default_context.client.get_confirmed_transaction` (the oracle maps the loop
index to the envelope's `result`, `none` for JSON null) and returns the
result as soon as it is non-null.  When the loop finishes, the timeout log
line interpolates the loop variable `wait`; if the loop body never ran
(`max_wait_in_seconds = 0`) that local was never bound and Python raises
UnboundLocalError, a NameError. -/
def wait_for_confirmation_go (get_confirmed : Nat → Option Nat) (wait : Nat) :
    Nat → Except PyError (Option Nat) × List PollEvent
  | 0 =>
    if wait == 0 then (Except.error PyError.nameError, [])
    else (Except.ok none, [])
  | remaining + 1 =>
    match get_confirmed wait with
    | some r => (Except.ok (some r), [PollEvent.sleep, PollEvent.poll wait])
    | none =>
      let rest := wait_for_confirmation_go get_confirmed (wait + 1) remaining
      (rest.1, [PollEvent.sleep, PollEvent.poll wait] ++ rest.2)

/-- `Context.wait_for_confirmation`.  The receiving instance's own client is
`self_client`; the module-level `default_context`'s client is
`default_client`.  The source polls `default_context.client`, so
`self_client` goes unused. -/
def Context.wait_for_confirmation (self_client default_client : Nat → Option Nat)
    (max_wait_in_seconds : Nat) : Except PyError (Option Nat) × List PollEvent :=
  wait_for_confirmation_go default_client 0 max_wait_in_seconds

/-- The event trace of `n` completed loop iterations starting at loop index
`start`: sleep then poll, for indices `start, ..., start + n - 1`. -/
def pollTraceFrom (start n : Nat) : List PollEvent :=
  (List.range' start n).flatMap (fun i => [PollEvent.sleep, PollEvent.poll i])

/-- The event trace of `n` completed loop iterations: sleep then poll, for
loop indices `0, ..., n-1`. -/
def pollTrace (n : Nat) : List PollEvent :=
  pollTraceFrom 0 n

/-- A `Token` as constructed by `IdsJsonMarketLookup._load_tokens`:
`Token(symbol, symbol, PublicKey(mintKey), Decimal(decimals))` (the name
argument repeats the symbol, so one field represents both). -/
structure Token where
  symbol : String
  mintKey : PublicKey
  decimals : Nat
deriving DecidableEq

/-- A token entry of a group in the `MangoConstants["groups"]` registry. -/
structure TokenData where
  symbol : String
  mintKey : String
  decimals : Nat
deriving DecidableEq

/-- A market entry (`perpMarkets` / `spotMarkets`) of a registry group:
`name`, `publicKey` (used by `_from_dict` for the market address), `key`
(used by `find_by_address`) and `baseSymbol`. -/
structure MarketData where
  name : String
  publicKey : String
  key : String
  baseSymbol : String
deriving DecidableEq

/-- A group entry of `MangoConstants["groups"]` as `idsjsonmarketlookup.py`
reads it. -/
structure GroupData where
  cluster : String
  publicKey : String
  quoteSymbol : String
  tokens : List TokenData
  perpMarkets : List MarketData
  spotMarkets : List MarketData
deriving DecidableEq

/-- The Market variants `PerpsMarket(base, quote, address)` and
`SpotMarket(base, quote, address, group_address)` as constructed by
`_from_dict`. -/
inductive Market where
  | perps (base quote : Token) (address : PublicKey)
  | spot (base quote : Token) (address : PublicKey) (group_address : PublicKey)
deriving DecidableEq

/-- The `IdsJsonMarketType` enum. -/
inductive IdsJsonMarketType where
  | PERP
  | SPOT
deriving DecidableEq

/-- `IdsJsonMarketLookup._load_tokens`: one `Token` per registry token entry. -/
def IdsJsonMarketLookup.load_tokens (data : List TokenData) : List Token :=
  data.map (fun td => { symbol := td.symbol, mintKey := td.mintKey, decimals := td.decimals })

/-- The final construction of `_from_dict` once base and quote are assigned:
a `PerpsMarket` or a `SpotMarket` (the latter also holding the group
address), at `PublicKey(data["publicKey"])`. -/
def marketOf (market_type : IdsJsonMarketType) (base quote : Token)
    (address : PublicKey) (group_address : PublicKey) : Market :=
  match market_type with
  | IdsJsonMarketType.PERP => Market.perps base quote address
  | IdsJsonMarketType.SPOT => Market.spot base quote address group_address

/-- `IdsJsonMarketLookup._from_dict`.  The two conditions are evaluated with
Python's short-circuit `and` over `tokens[0]` / `tokens[1]` (so `tokens[1]`
is only indexed when the first conjunct held); any combination matching
neither branch raises the configuration `Exception` naming the base and
quote symbols. -/
def IdsJsonMarketLookup.from_dict (market_type : IdsJsonMarketType) (group_address : PublicKey)
    (data : MarketData) (tokens : List Token) (quote_symbol : String) :
    Except PyError Market := do
  let base_symbol := data.baseSymbol
  let t0 ← indexGet tokens 0
  let cond1 ←
    if t0.symbol == quote_symbol then do
      let t1 ← indexGet tokens 1
      pure (t1.symbol == base_symbol)
    else
      pure false
  if cond1 then do
    let t1 ← indexGet tokens 1
    pure (marketOf market_type t1 t0 data.publicKey group_address)
  else do
    let cond2 ←
      if t0.symbol == base_symbol then do
        let t1 ← indexGet tokens 1
        pure (t1.symbol == quote_symbol)
      else
        pure false
    if cond2 then do
      let t1 ← indexGet tokens 1
      pure (marketOf market_type t0 t1 data.publicKey group_address)
    else
      Except.error (PyError.exception
        ("Could not find base (\x27" ++ base_symbol ++ "\x27) or quote symbol (\x27" ++
          quote_symbol ++ "\x27) in tokens."))

/-- The market constructed from one registry entry `md` of a
group, for the given market type. -/
def IdsJsonMarketLookup.group_market (market_type : IdsJsonMarketType) (group : GroupData)
    (md : MarketData) : Except PyError Market :=
  IdsJsonMarketLookup.from_dict market_type group.publicKey md
    (IdsJsonMarketLookup.load_tokens group.tokens) group.quoteSymbol

/-- The loop of `IdsJsonMarketLookup.find_by_symbol` over
`MangoConstants["groups"]`: skip groups of other clusters; in a matching
group return the first perp entry whose `name` matches the symbol
case-insensitively, else the first such spot entry, else continue. -/
def IdsJsonMarketLookup.find_by_symbol_go (cluster symbol : String) :
    List GroupData → Except PyError (Option Market)
  | [] => Except.ok none
  | group :: rest =>
    if group.cluster == cluster then
      match group.perpMarkets.find? (fun md => md.name.toUpper == symbol.toUpper) with
      | some md =>
        (IdsJsonMarketLookup.group_market IdsJsonMarketType.PERP group md).map some
      | none =>
        match group.spotMarkets.find? (fun md => md.name.toUpper == symbol.toUpper) with
        | some md =>
          (IdsJsonMarketLookup.group_market IdsJsonMarketType.SPOT group md).map some
        | none => IdsJsonMarketLookup.find_by_symbol_go cluster symbol rest
    else IdsJsonMarketLookup.find_by_symbol_go cluster symbol rest

/-- `IdsJsonMarketLookup.find_by_symbol` on registry `groups` for the
instance's `cluster`. -/
def IdsJsonMarketLookup.find_by_symbol (groups : List GroupData) (cluster symbol : String) :
    Except PyError (Option Market) :=
  IdsJsonMarketLookup.find_by_symbol_go cluster symbol groups

/-- The loop of `IdsJsonMarketLookup.find_by_address`: like
`find_by_symbol_go` but matching `market_data["key"] == str(address)`
exactly. -/
def IdsJsonMarketLookup.find_by_address_go (cluster : String) (address : PublicKey) :
    List GroupData → Except PyError (Option Market)
  | [] => Except.ok none
  | group :: rest =>
    if group.cluster == cluster then
      match group.perpMarkets.find? (fun md => md.key == address) with
      | some md =>
        (IdsJsonMarketLookup.group_market IdsJsonMarketType.PERP group md).map some
      | none =>
        match group.spotMarkets.find? (fun md => md.key == address) with
        | some md =>
          (IdsJsonMarketLookup.group_market IdsJsonMarketType.SPOT group md).map some
        | none => IdsJsonMarketLookup.find_by_address_go cluster address rest
    else IdsJsonMarketLookup.find_by_address_go cluster address rest

/-- `IdsJsonMarketLookup.find_by_address` on registry `groups`. -/
def IdsJsonMarketLookup.find_by_address (groups : List GroupData) (cluster : String)
    (address : PublicKey) : Except PyError (Option Market) :=
  IdsJsonMarketLookup.find_by_address_go cluster address groups

/-- The inner `for market_data in ...` loop of `all_markets`: each iteration
constructs `market` and then executes `markets = [market]`, overwriting the
accumulator rather than appending to it. -/
def overwriteLoop (f : MarketData → Except PyError Market) :
    List MarketData → List Market → Except PyError (List Market)
  | [], markets => Except.ok markets
  | md :: rest, _markets => do
    let market ← f md
    overwriteLoop f rest [market]

/-- The loop of `IdsJsonMarketLookup.all_markets` over the registry groups:
for each group of the active cluster, the perp-market loop and then the
spot-market loop, each with the overwriting accumulator assignment. -/
def IdsJsonMarketLookup.all_markets_go (cluster : String) :
    List GroupData → List Market → Except PyError (List Market)
  | [], markets => Except.ok markets
  | group :: rest, markets =>
    if group.cluster == cluster then do
      let markets1 ← overwriteLoop (IdsJsonMarketLookup.group_market IdsJsonMarketType.PERP group)
        group.perpMarkets markets
      let markets2 ← overwriteLoop (IdsJsonMarketLookup.group_market IdsJsonMarketType.SPOT group)
        group.spotMarkets markets1
      IdsJsonMarketLookup.all_markets_go cluster rest markets2
    else IdsJsonMarketLookup.all_markets_go cluster rest markets

/-- `IdsJsonMarketLookup.all_markets` on registry `groups`, starting from the
empty accumulator. -/
def IdsJsonMarketLookup.all_markets (groups : List GroupData) (cluster : String) :
    Except PyError (List Market) :=
  IdsJsonMarketLookup.all_markets_go cluster groups []

/-- The appending counterpart of `overwriteLoop`: construct every market of
the list, in order. -/
def appendLoop (f : MarketData → Except PyError Market) :
    List MarketData → Except PyError (List Market)
  | [] => Except.ok []
  | md :: rest => do
    let market ← f md
    let tail ← appendLoop f rest
    pure (market :: tail)

/-- The appending variant of the `all_markets` loop, used only to name, in
theorem statements, the full list of markets in construction order (per
matching group: all perp markets, then all spot markets). -/
def IdsJsonMarketLookup.all_markets_appending (cluster : String) :
    List GroupData → Except PyError (List Market)
  | [] => Except.ok []
  | group :: rest =>
    if group.cluster == cluster then do
      let perps ← appendLoop (IdsJsonMarketLookup.group_market IdsJsonMarketType.PERP group)
        group.perpMarkets
      let spots ← appendLoop (IdsJsonMarketLookup.group_market IdsJsonMarketType.SPOT group)
        group.spotMarkets
      let tail ← IdsJsonMarketLookup.all_markets_appending cluster rest
      pure (perps ++ spots ++ tail)
    else IdsJsonMarketLookup.all_markets_appending cluster rest

/-- The scan that mirrors `find_by_symbol`'s traversal, used in theorem
statements to name the first matching registry entry: the first group of the
active cluster holding a case-insensitive name match, preferring its perp
list over its spot list. -/
def IdsJsonMarketLookup.first_symbol_match (cluster symbol : String) :
    List GroupData → Option (GroupData × IdsJsonMarketType × MarketData)
  | [] => none
  | group :: rest =>
    if group.cluster == cluster then
      match group.perpMarkets.find? (fun md => md.name.toUpper == symbol.toUpper) with
      | some md => some (group, IdsJsonMarketType.PERP, md)
      | none =>
        match group.spotMarkets.find? (fun md => md.name.toUpper == symbol.toUpper) with
        | some md => some (group, IdsJsonMarketType.SPOT, md)
        | none => IdsJsonMarketLookup.first_symbol_match cluster symbol rest
    else IdsJsonMarketLookup.first_symbol_match cluster symbol rest

/-- The scan that mirrors `find_by_address`'s traversal: exact `key`
match. -/
def IdsJsonMarketLookup.first_address_match (cluster : String) (address : PublicKey) :
    List GroupData → Option (GroupData × IdsJsonMarketType × MarketData)
  | [] => none
  | group :: rest =>
    if group.cluster == cluster then
      match group.perpMarkets.find? (fun md => md.key == address) with
      | some md => some (group, IdsJsonMarketType.PERP, md)
      | none =>
        match group.spotMarkets.find? (fun md => md.key == address) with
        | some md => some (group, IdsJsonMarketType.SPOT, md)
        | none => IdsJsonMarketLookup.first_address_match cluster address rest
    else IdsJsonMarketLookup.first_address_match cluster address rest

/-- Modelled from the spec: `TransferSplTokensInstructionBuilder` lives in the
repository's `mango/instructions.py`, which is not among the staged source
files; only its test (`tests/test_instructions.py`) is.  Per the spec, the
builder stores its construction inputs and "is responsible for scaling
`quantity` (a human-readable amount) into base units by multiplying by
`10^decimals` and storing the integer result", which the test pins as
`actual.amount == int(quantity * (10 ** token.decimals))`. -/
structure TransferSplTokensInstructionBuilder where
  token : Token
  source : PublicKey
  destination : PublicKey
  amount : Int

/-- Modelled from the spec: the constructor of
`TransferSplTokensInstructionBuilder`, storing the token, source and
destination verbatim and the amount scaled to base units. -/
def TransferSplTokensInstructionBuilder.make (token : Token)
    (source destination : PublicKey) (quantity : Int) :
    TransferSplTokensInstructionBuilder :=
  { token := token, source := source, destination := destination,
    amount := quantity * (10 : Int) ^ token.decimals }

/-- Bind on an `ok` value reduces to the continuation. -/
@[simp] theorem exceptOkBind {ε α β : Type} (a : α) (f : α → Except ε β) :
    (Except.ok a : Except ε α) >>= f = f a := rfl

/-- Bind on an `error` short-circuits. -/
@[simp] theorem exceptErrorBind {ε α β : Type} (e : ε) (f : α → Except ε β) :
    (Except.error e : Except ε α) >>= f = Except.error e := rfl

/-- Pure in the `Except` monad is `ok`. -/
@[simp] theorem exceptPureEq {ε α : Type} (a : α) : (pure a : Except ε α) = Except.ok a := rfl

/-- Map over an `ok` value. -/
@[simp] theorem exceptMapOk {ε α β : Type} (f : α → β) (a : α) :
    (Except.ok a : Except ε α).map f = Except.ok (f a) := rfl

/-- Map over an `error`. -/
@[simp] theorem exceptMapError {ε α β : Type} (f : α → β) (e : ε) :
    (Except.error e : Except ε α).map f = Except.error e := rfl

/-- Inversion of a successful bind: the first stage succeeded and the
continuation succeeded on its value. -/
theorem exceptBindOkInv {ε α β : Type} {e : Except ε α} {f : α → Except ε β} {b : β}
    (h : e >>= f = Except.ok b) : ∃ a, e = Except.ok a ∧ f a = Except.ok b := by
  cases e with
  | error err => simp at h
  | ok a => exact ⟨a, rfl, h⟩

/-- The legacy-program invariant of claim C1: a Context whose group id is the
legacy 3-token group carries the legacy program id. -/
def legacyInvariant (ctx : Context) : Prop :=
  ctx.group_id = OLD_3_TOKEN_GROUP_ID → ctx.program_id = OLD_3_TOKEN_PROGRAM_ID

/-- Every Context built by the constructor satisfies the legacy-program
invariant: the substitution happens in `__init__` itself. -/
theorem init_legacyInvariant (c u : String) (p d : PublicKey) (gn : String) (gid : PublicKey) :
    legacyInvariant (Context.init c u p d gn gid) := by
  intro h
  have hgid : gid = OLD_3_TOKEN_GROUP_ID := h
  simp [Context.init, hgid]

theorem new_from_cluster_ok_legacyInvariant (mc : MangoConstantsData) (self : Context)
    (c : String) (ctx : Context) (h : Context.new_from_cluster mc self c = Except.ok ctx) :
    legacyInvariant ctx := by
  unfold Context.new_from_cluster at h
  obtain ⟨url, h1, h⟩ := exceptBindOkInv h
  obtain ⟨ci, h2, h⟩ := exceptBindOkInv h
  obtain ⟨gi, h3, h⟩ := exceptBindOkInv h
  simp at h
  exact h ▸ init_legacyInvariant _ _ _ _ _ _

theorem new_from_cluster_url_legacyInvariant (self : Context) (u : String) :
    legacyInvariant (Context.new_from_cluster_url self u) :=
  init_legacyInvariant _ _ _ _ _ _

theorem new_from_group_name_ok_legacyInvariant (mc : MangoConstantsData) (self : Context)
    (gn : String) (ctx : Context) (h : Context.new_from_group_name mc self gn = Except.ok ctx) :
    legacyInvariant ctx := by
  unfold Context.new_from_group_name at h
  obtain ⟨ci, h1, h⟩ := exceptBindOkInv h
  obtain ⟨gi, h2, h⟩ := exceptBindOkInv h
  simp at h
  exact h ▸ init_legacyInvariant _ _ _ _ _ _

theorem new_from_group_id_ok_legacyInvariant (mc : MangoConstantsData) (self : Context)
    (gid : PublicKey) (ctx : Context) (h : Context.new_from_group_id mc self gid = Except.ok ctx) :
    legacyInvariant ctx := by
  unfold Context.new_from_group_id at h
  obtain ⟨ci, h1, h⟩ := exceptBindOkInv h
  simp at h
  exact h ▸ init_legacyInvariant _ _ _ _ _ _

theorem from_command_line_ok_legacyInvariant (mc : MangoConstantsData)
    (dgn : String) (dgid : PublicKey) (c u : String) (p d : PublicKey) (gn : String)
    (gid : PublicKey) (ctx : Context)
    (h : Context.from_command_line mc dgn dgid c u p d gn gid = Except.ok ctx) :
    legacyInvariant ctx := by
  unfold Context.from_command_line at h
  obtain ⟨gid2, h1, h⟩ := exceptBindOkInv h
  simp at h
  exact h ▸ init_legacyInvariant _ _ _ _ _ _

theorem from_cluster_and_group_name_ok_legacyInvariant (mc : MangoConstantsData)
    (c gn : String) (ctx : Context)
    (h : Context.from_cluster_and_group_name mc c gn = Except.ok ctx) :
    legacyInvariant ctx := by
  unfold Context.from_cluster_and_group_name at h
  obtain ⟨url, h1, h⟩ := exceptBindOkInv h
  obtain ⟨ci, h2, h⟩ := exceptBindOkInv h
  obtain ⟨gi, h3, h⟩ := exceptBindOkInv h
  simp at h
  exact h ▸ init_legacyInvariant _ _ _ _ _ _

theorem from_context_command_line_parameters_ok_legacyInvariant (mc : MangoConstantsData)
    (dgn : String) (dgid : PublicKey) (args : Args) (ctx : Context)
    (h : Context.from_context_command_line_parameters mc dgn dgid args = Except.ok ctx) :
    legacyInvariant ctx := by
  unfold Context.from_context_command_line_parameters at h
  obtain ⟨gid2, h1, h⟩ := exceptBindOkInv h
  simp at h
  exact h ▸ init_legacyInvariant _ _ _ _ _ _

/-- C1: for every Context produced by any construction path (the direct
constructor, `new_from_cluster`, `new_from_cluster_url`,
`new_from_group_name`, `new_from_group_id`, `from_command_line`,
`from_cluster_and_group_name`, `from_context_command_line_parameters`): if
the resulting Context's `group_id` equals the legacy 3-token group constant
`7pVYhpKUHw88neQHxgExSH6cerMZ1Axx1ALQP9sxtvQV`, then its `program_id` equals
the legacy program constant `JD3bq9hGdy38PuWQ4h2YJpELmHVGPPfFSuFkpzAd9zfu`,
regardless of the `program_id` supplied. -/
theorem legacy_program_id_forced_on_every_construction_path :
    (∀ c u p d gn gid, legacyInvariant (Context.init c u p d gn gid))
    ∧ (∀ mc self c ctx, Context.new_from_cluster mc self c = Except.ok ctx →
        legacyInvariant ctx)
    ∧ (∀ self u, legacyInvariant (Context.new_from_cluster_url self u))
    ∧ (∀ mc self gn ctx, Context.new_from_group_name mc self gn = Except.ok ctx →
        legacyInvariant ctx)
    ∧ (∀ mc self gid ctx, Context.new_from_group_id mc self gid = Except.ok ctx →
        legacyInvariant ctx)
    ∧ (∀ mc dgn dgid c u p d gn gid ctx,
        Context.from_command_line mc dgn dgid c u p d gn gid = Except.ok ctx →
        legacyInvariant ctx)
    ∧ (∀ mc c gn ctx, Context.from_cluster_and_group_name mc c gn = Except.ok ctx →
        legacyInvariant ctx)
    ∧ (∀ mc dgn dgid args ctx,
        Context.from_context_command_line_parameters mc dgn dgid args = Except.ok ctx →
        legacyInvariant ctx) :=
  ⟨fun c u p d gn gid => init_legacyInvariant c u p d gn gid,
   fun mc self c ctx h => new_from_cluster_ok_legacyInvariant mc self c ctx h,
   fun self u => new_from_cluster_url_legacyInvariant self u,
   fun mc self gn ctx h => new_from_group_name_ok_legacyInvariant mc self gn ctx h,
   fun mc self gid ctx h => new_from_group_id_ok_legacyInvariant mc self gid ctx h,
   fun mc dgn dgid c u p d gn gid ctx h =>
     from_command_line_ok_legacyInvariant mc dgn dgid c u p d gn gid ctx h,
   fun mc c gn ctx h => from_cluster_and_group_name_ok_legacyInvariant mc c gn ctx h,
   fun mc dgn dgid args ctx h =>
     from_context_command_line_parameters_ok_legacyInvariant mc dgn dgid args ctx h⟩

/-- Witness for C1: constructing directly with the legacy group id and an
arbitrary other program id yields the legacy program id. -/
theorem legacy_program_id_forced_witness :
    (Context.init "mainnet-beta" "https://example" "SomeOtherProgram" "DexProgram"
      "BTC_ETH_USDT" OLD_3_TOKEN_GROUP_ID).program_id = OLD_3_TOKEN_PROGRAM_ID :=
  legacy_program_id_forced_on_every_construction_path.1 "mainnet-beta" "https://example"
    "SomeOtherProgram" "DexProgram" "BTC_ETH_USDT" OLD_3_TOKEN_GROUP_ID rfl

/-- C2 (code bug): `unwrap_or_raise_exception` returns the `result` value
when no `error` key is present (both in general and at `{"result": 42}`),
and raises the generic server exception with message `"bad"` and code `7` at
`{"error": {"message": "bad", "code": 7}}`; but at `{"error": "oops"}` the
bare-string branch is never taken (`response["error"] is str` compares the
value with the type object `str` and is always false), so the code
subscripts the string `"oops"` with `"message"` and raises `TypeError`
instead of the claimed generic error with message `"oops"` and code `-1`. -/
theorem unwrap_or_raise_exception_shapes :
    (∀ (response : List (String × JsonValue)) (v : JsonValue),
        List.lookup "error" response = none → List.lookup "result" response = some v →
        Context.unwrap_or_raise_exception response = Except.ok v)
    ∧ Context.unwrap_or_raise_exception [("result", JsonValue.num 42)]
        = Except.ok (JsonValue.num 42)
    ∧ Context.unwrap_or_raise_exception
        [("error", JsonValue.obj [("message", JsonValue.str "bad"), ("code", JsonValue.num 7)])]
        = Except.error (PyError.serverException (JsonValue.str "bad") (JsonValue.num 7))
    ∧ Context.unwrap_or_raise_exception [("error", JsonValue.str "oops")]
        = Except.error PyError.typeError := by
  refine ⟨?_, rfl, rfl, rfl⟩
  intro response v herr hres
  simp [Context.unwrap_or_raise_exception, herr, keyGet, hres]

/-- C5: `from_context_command_line_parameters` resolves the group id from the
registry exactly when a non-default group name arrives with the default
group id; in every other case the supplied group id is used as given. -/
theorem from_context_command_line_parameters_group_id_resolution :
    (∀ (mc : MangoConstantsData) (dgn : String) (dgid : PublicKey) (args : Args)
        (ci : ClusterInfo) (gi : GroupInfo),
        args.group_name ≠ dgn → args.group_id = dgid →
        List.lookup args.cluster mc.clusters = some ci →
        List.lookup args.group_name ci.mango_groups = some gi →
        (Context.from_context_command_line_parameters mc dgn dgid args).map Context.group_id
          = Except.ok gi.mango_group_pk)
    ∧ (∀ (mc : MangoConstantsData) (dgn : String) (dgid : PublicKey) (args : Args),
        args.group_name = dgn ∨ args.group_id ≠ dgid →
        (Context.from_context_command_line_parameters mc dgn dgid args).map Context.group_id
          = Except.ok args.group_id) := by
  constructor
  · intro mc dgn dgid args ci gi h1 h2 hci hgi
    simp [Context.from_context_command_line_parameters, resolveGroupId, keyGet,
      h1, h2, hci, hgi, Context.init]
  · intro mc dgn dgid args h
    rcases h with h | h <;>
      simp [Context.from_context_command_line_parameters, resolveGroupId, keyGet,
        h, Context.init]

/-- Concrete registry for the C5 witness: one testnet cluster with one
non-default group. -/
def c5mc : MangoConstantsData :=
  { cluster_urls := [("testnet", "https://testnet.example")],
    clusters := [("testnet",
      { mango_program_id := "TestProgram", dex_program_id := "TestDex",
        mango_groups := [("NEW_GROUP", { mango_group_pk := "NewGroupPk111" })] })] }

/-- Parsed arguments for the C5 witness: non-default group name, default
group id. -/
def c5args : Args :=
  { cluster := "testnet", cluster_url := "https://testnet.example",
    program_id := "TestProgram", dex_program_id := "TestDex",
    group_name := "NEW_GROUP", group_id := "DefaultGroupPk" }

/-- Witness for C5: with group name `NEW_GROUP` (non-default) and the default
group id, the constructed Context carries the registry's group pk. -/
theorem from_context_command_line_parameters_group_id_witness :
    (Context.from_context_command_line_parameters c5mc "BTC_ETH_USDT" "DefaultGroupPk"
      c5args).map Context.group_id = Except.ok "NewGroupPk111" :=
  from_context_command_line_parameters_group_id_resolution.1 c5mc "BTC_ETH_USDT"
    "DefaultGroupPk" c5args _ _ (by decide) rfl rfl rfl

/-- C8 (amended): `new_from_cluster C` recomputes every field from the
registry for cluster `C` — `cluster = C`, the registry URL, dex program id,
and the group id registered for the original Context's group name — and its
`program_id` is the registry's program id unless the resolved group id is the
legacy 3-token group, in which case the constructor substitutes the legacy
program id.  The original Context is not touched (derivation is pure). -/
theorem new_from_cluster_matches_registry (mc : MangoConstantsData) (self : Context)
    (C : String) (url : String) (ci : ClusterInfo) (gi : GroupInfo)
    (hurl : List.lookup C mc.cluster_urls = some url)
    (hci : List.lookup C mc.clusters = some ci)
    (hgi : List.lookup self.group_name ci.mango_groups = some gi) :
    Context.new_from_cluster mc self C
      = Except.ok { cluster := C, cluster_url := url,
                    program_id := if gi.mango_group_pk = OLD_3_TOKEN_GROUP_ID
                      then OLD_3_TOKEN_PROGRAM_ID else ci.mango_program_id,
                    dex_program_id := ci.dex_program_id,
                    group_name := self.group_name, group_id := gi.mango_group_pk } := by
  simp [Context.new_from_cluster, keyGet, hurl, hci, hgi, Context.init]

/-- Concrete registry for C8: the devnet entry's group pk is the legacy
3-token group, but its `mango_program_id` is a different, newer program. -/
def c8mc : MangoConstantsData :=
  { cluster_urls := [("devnet", "https://devnet.example")],
    clusters := [("devnet",
      { mango_program_id := "NewProgram1111", dex_program_id := "DevnetDex",
        mango_groups := [("BTC_ETH_USDT", { mango_group_pk := OLD_3_TOKEN_GROUP_ID })] })] }

/-- The original Context for C8. -/
def c8self : Context :=
  Context.init "mainnet-beta" "https://mainnet.example" "MainProgram" "MainDex"
    "BTC_ETH_USDT" "SomeGroupPk"

/-- Counterexample for C8 as stated: deriving onto `devnet` whose registered
group pk is the legacy 3-token group yields `program_id` equal to the legacy
program constant, which differs from the registry's `mango_program_id`
(`NewProgram1111`) for that cluster. -/
theorem new_from_cluster_registry_counterexample :
    (Context.new_from_cluster c8mc c8self "devnet").map Context.program_id
      = Except.ok OLD_3_TOKEN_PROGRAM_ID
    ∧ (List.lookup "devnet" c8mc.clusters).map ClusterInfo.mango_program_id
      = some "NewProgram1111"
    ∧ OLD_3_TOKEN_PROGRAM_ID ≠ ("NewProgram1111" : String) := by
  refine ⟨rfl, rfl, by decide⟩

/-- Witness for C8 (amended) at the concrete devnet registry. -/
theorem new_from_cluster_matches_registry_witness :
    Context.new_from_cluster c8mc c8self "devnet"
      = Except.ok { cluster := "devnet", cluster_url := "https://devnet.example",
                    program_id := if (OLD_3_TOKEN_GROUP_ID : PublicKey) = OLD_3_TOKEN_GROUP_ID
                      then OLD_3_TOKEN_PROGRAM_ID else "NewProgram1111",
                    dex_program_id := "DevnetDex",
                    group_name := "BTC_ETH_USDT",
                    group_id := OLD_3_TOKEN_GROUP_ID } :=
  new_from_cluster_matches_registry c8mc c8self "devnet" "https://devnet.example"
    { mango_program_id := "NewProgram1111", dex_program_id := "DevnetDex",
      mango_groups := [("BTC_ETH_USDT", { mango_group_pk := OLD_3_TOKEN_GROUP_ID })] }
    { mango_group_pk := OLD_3_TOKEN_GROUP_ID } rfl rfl rfl

/-- An RPC confirmation oracle that always reports a null result. -/
def alwaysNullClient : Nat → Option Nat := fun _ => none

/-- An RPC confirmation oracle that reports result `5` at every poll. -/
def alwaysFiveClient : Nat → Option Nat := fun _ => some 5

/-- When every poll is null, the loop runs all its iterations and ends with
`ok none`, provided at least one iteration bound the loop variable. -/
theorem wait_go_all_null (client : Nat → Option Nat) (hc : ∀ i, client i = none) :
    ∀ (n wait : Nat), 1 ≤ wait + n →
      wait_for_confirmation_go client wait n = (Except.ok none, pollTraceFrom wait n) := by
  intro n
  induction n with
  | zero =>
    intro wait hw
    have hwait : (wait == 0) = false := by
      simp only [beq_eq_false_iff_ne, ne_eq]
      omega
    simp [wait_for_confirmation_go, hwait, pollTraceFrom]
  | succ n ih =>
    intro wait _
    have hrest := ih (wait + 1) (by omega)
    simp [wait_for_confirmation_go, hc wait, hrest, pollTraceFrom, List.range'_succ]

/-- When the first non-null poll is at loop index `wait + i` (all earlier
polls from `wait` on are null) and at least `i + 1` iterations remain, the
loop returns that result right there. -/
theorem wait_go_first_some (client : Nat → Option Nat) :
    ∀ (i wait n r : Nat), (∀ j, wait ≤ j → j < wait + i → client j = none) →
      i < n → client (wait + i) = some r →
      wait_for_confirmation_go client wait n
        = (Except.ok (some r), pollTraceFrom wait (i + 1)) := by
  intro i
  induction i with
  | zero =>
    intro wait n r _ hn hr
    cases n with
    | zero => omega
    | succ m =>
      simp only [Nat.add_zero] at hr
      simp [wait_for_confirmation_go, hr, pollTraceFrom, List.range'_succ]
  | succ i ih =>
    intro wait n r hnull hn hr
    cases n with
    | zero => omega
    | succ m =>
      have h0 : client wait = none := hnull wait (Nat.le_refl wait) (by omega)
      have hrest := ih (wait + 1) m r
        (fun j hj1 hj2 => hnull j (by omega) (by omega)) (by omega)
        (by have : wait + 1 + i = wait + (i + 1) := by omega
            rw [this]; exact hr)
      simp [wait_for_confirmation_go, h0, hrest, pollTraceFrom, List.range'_succ]

/-- C4 (amended): for `max_wait_in_seconds ≥ 1` and an oracle that always
reports a null result, `wait_for_confirmation` performs exactly
`max_wait_in_seconds` polls, each preceded by a 1-second sleep, and returns
`None`; for an oracle whose first non-null result is at poll index
`i < max_wait_in_seconds`, it returns that result at that poll, having
performed `i + 1` sleep-then-poll iterations.  (At
`max_wait_in_seconds = 0`, see the counterexample: the timeout log line
reads the never-bound loop variable and raises, instead of returning
`None`.) -/
theorem wait_for_confirmation_polling :
    (∀ (self_client client : Nat → Option Nat) (max_wait : Nat),
        (∀ i, client i = none) → 1 ≤ max_wait →
        Context.wait_for_confirmation self_client client max_wait
          = (Except.ok none, pollTrace max_wait))
    ∧ (∀ (self_client client : Nat → Option Nat) (max_wait i r : Nat),
        (∀ j, j < i → client j = none) → i < max_wait → client i = some r →
        Context.wait_for_confirmation self_client client max_wait
          = (Except.ok (some r), pollTrace (i + 1))) := by
  constructor
  · intro self_client client max_wait hc hm
    unfold Context.wait_for_confirmation pollTrace
    exact wait_go_all_null client hc max_wait 0 (by omega)
  · intro self_client client max_wait i r hnull hi hr
    unfold Context.wait_for_confirmation pollTrace
    exact wait_go_first_some client i 0 max_wait r
      (fun j _ hj => hnull j (by omega)) hi (by simpa using hr)

/-- Counterexample for C4 as stated: with `max_wait_in_seconds = 0` and an
always-null oracle, the loop body never runs, so the timeout log line's read
of the loop variable raises UnboundLocalError (a NameError) — the call does
not return `None`. -/
theorem wait_for_confirmation_zero_counterexample :
    Context.wait_for_confirmation alwaysNullClient alwaysNullClient 0
      = (Except.error PyError.nameError, [])
    ∧ (Context.wait_for_confirmation alwaysNullClient alwaysNullClient 0).1
      ≠ Except.ok none := by
  refine ⟨rfl, ?_⟩
  intro h
  exact Except.noConfusion h

/-- Witness for C4 at `max_wait_in_seconds = 3` with an always-null oracle:
three sleep-poll iterations, then `None`. -/
theorem wait_for_confirmation_polling_witness :
    Context.wait_for_confirmation alwaysNullClient alwaysNullClient 3
      = (Except.ok none, pollTrace 3) :=
  wait_for_confirmation_polling.1 alwaysNullClient alwaysNullClient 3
    (fun _ => rfl) (by omega)

/-- C10: the confirmation polls go through the module-level
`default_context`'s client: the receiving instance's own client never
affects the outcome, while changing the default context's client does. -/
theorem wait_for_confirmation_uses_default_context_client :
    (∀ (selfA selfB default_client : Nat → Option Nat) (n : Nat),
        Context.wait_for_confirmation selfA default_client n
          = Context.wait_for_confirmation selfB default_client n)
    ∧ Context.wait_for_confirmation alwaysNullClient alwaysNullClient 1
        ≠ Context.wait_for_confirmation alwaysNullClient alwaysFiveClient 1 := by
  constructor
  · intro _ _ _ _
    rfl
  · intro h
    have h1 : Context.wait_for_confirmation alwaysNullClient alwaysNullClient 1
        = (Except.ok none, [PollEvent.sleep, PollEvent.poll 0]) := rfl
    have h2 : Context.wait_for_confirmation alwaysNullClient alwaysFiveClient 1
        = (Except.ok (some 5), [PollEvent.sleep, PollEvent.poll 0]) := rfl
    rw [h1, h2] at h
    simp at h

/-- Witness for C10: two different instance clients, same default client,
same outcome. -/
theorem wait_for_confirmation_uses_default_witness :
    Context.wait_for_confirmation alwaysFiveClient alwaysNullClient 2
      = Context.wait_for_confirmation alwaysNullClient alwaysNullClient 2 :=
  wait_for_confirmation_uses_default_context_client.1 alwaysFiveClient alwaysNullClient
    alwaysNullClient 2

/-- C6: the builder scales the human-readable quantity into base units by
multiplying by `10^decimals` and stores the integer result; in particular
with `decimals = 2` and `quantity = 7` the stored amount is `700` (the test
pins `actual.amount == int(quantity * (10 ** token.decimals))`). -/
theorem transfer_spl_tokens_amount_scaling :
    (∀ (token : Token) (source destination : PublicKey) (quantity : Int),
        (TransferSplTokensInstructionBuilder.make token source destination quantity).amount
          = quantity * (10 : Int) ^ token.decimals)
    ∧ (TransferSplTokensInstructionBuilder.make
        { symbol := "FAKE", mintKey := "FakeMint", decimals := 2 }
        "SourceSplAccount" "DestinationSplAccount" 7).amount = 700 := by
  refine ⟨fun _ _ _ _ => rfl, ?_⟩
  simp [TransferSplTokensInstructionBuilder.make]

/-- The overwriting accumulator's final value, as a function of the list a
faithful appending loop would have produced: the singleton of its last
element, or the starting accumulator when nothing was constructed. -/
def lastOr (acc : List Market) (ms : List Market) : List Market :=
  match ms.getLast? with
  | none => acc
  | some m => [m]

theorem lastOr_nil (acc : List Market) : lastOr acc [] = acc := rfl

theorem lastOr_cons (acc : List Market) (m : Market) (ms : List Market) :
    lastOr acc (m :: ms) = lastOr [m] ms := by
  cases ms with
  | nil => rfl
  | cons m2 ms2 =>
    unfold lastOr
    rw [List.getLast?_cons_cons]
    cases h : (m2 :: ms2).getLast? with
    | none => simp at h
    | some x => rfl

theorem lastOr_append (acc : List Market) (xs ys : List Market) :
    lastOr acc (xs ++ ys) = lastOr (lastOr acc xs) ys := by
  cases hy : ys.getLast? with
  | none =>
    have : ys = [] := by simpa using hy
    subst this
    simp [lastOr_nil]
  | some m =>
    have hne : ys ≠ [] := by
      intro h
      subst h
      simp at hy
    simp [lastOr, hy, List.getLast?_append_of_ne_nil xs hne]

/-- The overwriting inner loop computes the appending loop's result collapsed
by `lastOr`: same success/failure, and on success the singleton of the last
constructed market (or the untouched accumulator when the list is empty). -/
theorem overwriteLoop_eq_appendLoop (f : MarketData → Except PyError Market) :
    ∀ (l : List MarketData) (acc : List Market),
      overwriteLoop f l acc = (appendLoop f l).map (lastOr acc) := by
  intro l
  induction l with
  | nil => intro acc; rfl
  | cons md rest ih =>
    intro acc
    cases hf : f md with
    | error e => simp [overwriteLoop, appendLoop, hf]
    | ok m =>
      cases hr : appendLoop f rest with
      | error e => simp [overwriteLoop, appendLoop, hf, hr, ih [m]]
      | ok ms => simp [overwriteLoop, appendLoop, hf, hr, ih [m], lastOr_cons]

/-- The group loop of `all_markets` computes the appending variant collapsed
by `lastOr`. -/
theorem all_markets_go_eq_appending (cluster : String) :
    ∀ (groups : List GroupData) (acc : List Market),
      IdsJsonMarketLookup.all_markets_go cluster groups acc
        = (IdsJsonMarketLookup.all_markets_appending cluster groups).map (lastOr acc) := by
  intro groups
  induction groups with
  | nil => intro acc; rfl
  | cons g rest ih =>
    intro acc
    simp only [IdsJsonMarketLookup.all_markets_go, IdsJsonMarketLookup.all_markets_appending]
    by_cases hcl : (g.cluster == cluster) = true
    · simp only [hcl, if_true]
      rw [overwriteLoop_eq_appendLoop]
      cases hp : appendLoop (IdsJsonMarketLookup.group_market IdsJsonMarketType.PERP g)
        g.perpMarkets with
      | error e => simp [hp]
      | ok perps =>
        simp only [hp, exceptMapOk, exceptOkBind]
        rw [overwriteLoop_eq_appendLoop]
        cases hs : appendLoop (IdsJsonMarketLookup.group_market IdsJsonMarketType.SPOT g)
          g.spotMarkets with
        | error e => simp [hs]
        | ok spots =>
          simp only [hs, exceptMapOk, exceptOkBind]
          rw [ih]
          cases ht : IdsJsonMarketLookup.all_markets_appending cluster rest with
          | error e => simp [ht]
          | ok tail => simp [ht, lastOr_append]
    · simp only [hcl, if_false, Bool.false_eq_true]
      exact ih acc

/-- C3: `all_markets()` overwrites its accumulator each iteration instead of
appending, so whenever the traversal would have constructed the non-empty
list `full` of markets (in order: per matching group, perp markets then spot
markets), it returns the singleton of the market constructed last — and in
particular not the whole list whenever two or more markets exist. -/
theorem all_markets_overwrites_accumulator (groups : List GroupData) (cluster : String)
    (full : List Market)
    (happ : IdsJsonMarketLookup.all_markets_appending cluster groups = Except.ok full)
    (hne : full ≠ []) :
    IdsJsonMarketLookup.all_markets groups cluster = Except.ok [full.getLast hne]
    ∧ (2 ≤ full.length → IdsJsonMarketLookup.all_markets groups cluster ≠ Except.ok full) := by
  have h : IdsJsonMarketLookup.all_markets groups cluster = Except.ok (lastOr [] full) := by
    unfold IdsJsonMarketLookup.all_markets
    rw [all_markets_go_eq_appending, happ]
    rfl
  have hlast : lastOr [] full = [full.getLast hne] := by
    unfold lastOr
    rw [List.getLast?_eq_getLast full hne]
  constructor
  · rw [h, hlast]
  · intro hlen heq
    rw [h, hlast] at heq
    have h1 : [full.getLast hne] = full := Except.ok.inj heq
    have h2 : ([full.getLast hne]).length = full.length := by rw [h1]
    simp at h2
    omega

/-- Registry token entries for the market-lookup examples. -/
def exBtcTokenData : TokenData := { symbol := "BTC", mintKey := "BtcMint", decimals := 6 }

def exUsdtTokenData : TokenData := { symbol := "USDT", mintKey := "UsdtMint", decimals := 6 }

/-- The tokens `_load_tokens` constructs from the entries above. -/
def exBtcToken : Token := { symbol := "BTC", mintKey := "BtcMint", decimals := 6 }

def exUsdtToken : Token := { symbol := "USDT", mintKey := "UsdtMint", decimals := 6 }

/-- Two spot-market registry entries of one group. -/
def exSpot1 : MarketData :=
  { name := "BTC/USDT", publicKey := "SpotPk1", key := "SpotPk1", baseSymbol := "BTC" }

def exSpot2 : MarketData :=
  { name := "BTC2/USDT", publicKey := "SpotPk2", key := "SpotPk2", baseSymbol := "BTC" }

/-- A registry group on cluster `mainnet` with two spot markets. -/
def exGroup : GroupData :=
  { cluster := "mainnet", publicKey := "GroupPk", quoteSymbol := "USDT",
    tokens := [exBtcTokenData, exUsdtTokenData], perpMarkets := [],
    spotMarkets := [exSpot1, exSpot2] }

/-- The two markets the group's entries construct. -/
def exMarket1 : Market := Market.spot exBtcToken exUsdtToken "SpotPk1" "GroupPk"

def exMarket2 : Market := Market.spot exBtcToken exUsdtToken "SpotPk2" "GroupPk"

/-- Witness for C3: with two spot markets registered, `all_markets` returns
only the second. -/
theorem all_markets_overwrites_witness :
    IdsJsonMarketLookup.all_markets [exGroup] "mainnet" = Except.ok [exMarket2] :=
  (all_markets_overwrites_accumulator [exGroup] "mainnet" [exMarket1, exMarket2] rfl
    (by simp)).1

/-- C7: `_from_dict` over a supplied token pair returns the correctly
oriented Market variant when one token carries the quote symbol and the
other the entry's base symbol (the first branch, quote-first, takes
precedence), and raises the fatal configuration exception naming both
symbols on every other combination. -/
theorem from_dict_token_matching (mt : IdsJsonMarketType) (ga : PublicKey) (data : MarketData)
    (t0 t1 : Token) (q : String) :
    ((t0.symbol = q ∧ t1.symbol = data.baseSymbol) →
        IdsJsonMarketLookup.from_dict mt ga data [t0, t1] q
          = Except.ok (marketOf mt t1 t0 data.publicKey ga))
    ∧ (¬(t0.symbol = q ∧ t1.symbol = data.baseSymbol) →
        t0.symbol = data.baseSymbol → t1.symbol = q →
        IdsJsonMarketLookup.from_dict mt ga data [t0, t1] q
          = Except.ok (marketOf mt t0 t1 data.publicKey ga))
    ∧ (¬(t0.symbol = q ∧ t1.symbol = data.baseSymbol) →
        ¬(t0.symbol = data.baseSymbol ∧ t1.symbol = q) →
        IdsJsonMarketLookup.from_dict mt ga data [t0, t1] q
          = Except.error (PyError.exception
              ("Could not find base (\x27" ++ data.baseSymbol ++ "\x27) or quote symbol (\x27"
                ++ q ++ "\x27) in tokens."))) := by
  refine ⟨?_, ?_, ?_⟩
  · rintro ⟨h1, h2⟩
    simp [IdsJsonMarketLookup.from_dict, indexGet, h1, h2]
  · intro hn h2 h3
    by_cases hq : t0.symbol = q
    · exact absurd (h3.trans (hq.symm.trans h2)) (fun hb => hn ⟨hq, hb⟩)
    · have hbq : data.baseSymbol ≠ q := fun h => hq (h2.trans h)
      simp [IdsJsonMarketLookup.from_dict, indexGet, h2, h3, hbq]
  · intro h1 h2
    by_cases hq : t0.symbol = q
    · have hb : t1.symbol ≠ data.baseSymbol := fun hb => h1 ⟨hq, hb⟩
      by_cases hc : t0.symbol = data.baseSymbol
      · have hd : t1.symbol ≠ q := fun hd => h2 ⟨hc, hd⟩
        have hbq : data.baseSymbol = q := hc.symm.trans hq
        simp [IdsJsonMarketLookup.from_dict, indexGet, hq, hd, hbq]
      · have hqb : q ≠ data.baseSymbol := fun h => hc (hq.trans h)
        simp [IdsJsonMarketLookup.from_dict, indexGet, hq, hb, hqb]
    · by_cases hc : t0.symbol = data.baseSymbol
      · have hd : t1.symbol ≠ q := fun hd => h2 ⟨hc, hd⟩
        have hbq : data.baseSymbol ≠ q := fun h => hq (hc.trans h)
        simp [IdsJsonMarketLookup.from_dict, indexGet, hc, hbq, hd]
      · simp [IdsJsonMarketLookup.from_dict, indexGet, hq, hc]

/-- Witness for C7: quote-first token order on a spot entry yields the spot
market with base `BTC` and quote `USDT`. -/
theorem from_dict_token_matching_witness :
    IdsJsonMarketLookup.from_dict IdsJsonMarketType.SPOT "GroupPk" exSpot1
      [exUsdtToken, exBtcToken] "USDT"
      = Except.ok (marketOf IdsJsonMarketType.SPOT exBtcToken exUsdtToken "SpotPk1" "GroupPk") :=
  (from_dict_token_matching IdsJsonMarketType.SPOT "GroupPk" exSpot1 exUsdtToken exBtcToken
    "USDT").1 ⟨rfl, rfl⟩

/-- The symbol scan computes `find_by_symbol_go`: no match yields `ok none`
(no exception on a miss), a first match yields the market built from it. -/
theorem find_by_symbol_go_eq_first_match (cluster symbol : String) :
    ∀ groups, IdsJsonMarketLookup.find_by_symbol_go cluster symbol groups
      = (match IdsJsonMarketLookup.first_symbol_match cluster symbol groups with
         | none => Except.ok none
         | some (g, mt, md) => (IdsJsonMarketLookup.group_market mt g md).map some) := by
  intro groups
  induction groups with
  | nil => rfl
  | cons g rest ih =>
    simp only [IdsJsonMarketLookup.find_by_symbol_go, IdsJsonMarketLookup.first_symbol_match]
    by_cases hcl : (g.cluster == cluster) = true
    · rw [if_pos hcl, if_pos hcl]
      cases hp : g.perpMarkets.find? (fun md => md.name.toUpper == symbol.toUpper) with
      | some md => rfl
      | none =>
        cases hs : g.spotMarkets.find? (fun md => md.name.toUpper == symbol.toUpper) with
        | some md => rfl
        | none => exact ih
    · rw [if_neg hcl, if_neg hcl]
      exact ih

/-- The address scan computes `find_by_address_go` likewise. -/
theorem find_by_address_go_eq_first_match (cluster : String) (address : PublicKey) :
    ∀ groups, IdsJsonMarketLookup.find_by_address_go cluster address groups
      = (match IdsJsonMarketLookup.first_address_match cluster address groups with
         | none => Except.ok none
         | some (g, mt, md) => (IdsJsonMarketLookup.group_market mt g md).map some) := by
  intro groups
  induction groups with
  | nil => rfl
  | cons g rest ih =>
    simp only [IdsJsonMarketLookup.find_by_address_go, IdsJsonMarketLookup.first_address_match]
    by_cases hcl : (g.cluster == cluster) = true
    · rw [if_pos hcl, if_pos hcl]
      cases hp : g.perpMarkets.find? (fun md => md.key == address) with
      | some md => rfl
      | none =>
        cases hs : g.spotMarkets.find? (fun md => md.key == address) with
        | some md => rfl
        | none => exact ih
    · rw [if_neg hcl, if_neg hcl]
      exact ih

/-- The symbol scan misses exactly when no entry of the active cluster's
groups matches the symbol case-insensitively. -/
theorem first_symbol_match_none_iff (cluster symbol : String) :
    ∀ groups, (IdsJsonMarketLookup.first_symbol_match cluster symbol groups = none ↔
      ∀ g ∈ groups, g.cluster = cluster →
        (∀ md ∈ g.perpMarkets, md.name.toUpper ≠ symbol.toUpper)
        ∧ (∀ md ∈ g.spotMarkets, md.name.toUpper ≠ symbol.toUpper)) := by
  intro groups
  induction groups with
  | nil => simp [IdsJsonMarketLookup.first_symbol_match]
  | cons g rest ih =>
    simp only [IdsJsonMarketLookup.first_symbol_match, List.mem_cons, forall_eq_or_imp]
    by_cases hcl : (g.cluster == cluster) = true
    · rw [if_pos hcl]
      have hclr : g.cluster = cluster := by simpa using hcl
      cases hp : g.perpMarkets.find? (fun md => md.name.toUpper == symbol.toUpper) with
      | some md =>
        constructor
        · intro h
          exact Option.noConfusion h
        · intro h
          exfalso
          have hpred := List.find?_some hp
          have hmem := List.mem_of_find?_eq_some hp
          exact (h.1 hclr).1 md hmem (by simpa using hpred)
      | none =>
        cases hs : g.spotMarkets.find? (fun md => md.name.toUpper == symbol.toUpper) with
        | some md =>
          constructor
          · intro h
            exact Option.noConfusion h
          · intro h
            exfalso
            have hpred := List.find?_some hs
            have hmem := List.mem_of_find?_eq_some hs
            exact (h.1 hclr).2 md hmem (by simpa using hpred)
        | none =>
          rw [ih]
          constructor
          · intro h
            refine ⟨fun _ => ⟨?_, ?_⟩, h⟩
            · intro md hmem
              have := List.find?_eq_none.mp hp md hmem
              simpa using this
            · intro md hmem
              have := List.find?_eq_none.mp hs md hmem
              simpa using this
          · intro h
            exact h.2
    · rw [if_neg hcl]
      rw [ih]
      have hclr : ¬ g.cluster = cluster := by simpa using hcl
      constructor
      · intro h
        exact ⟨fun hc => absurd hc hclr, h⟩
      · intro h
        exact h.2

/-- The address scan misses exactly when no entry of the active cluster's
groups carries the exact address key. -/
theorem first_address_match_none_iff (cluster : String) (address : PublicKey) :
    ∀ groups, (IdsJsonMarketLookup.first_address_match cluster address groups = none ↔
      ∀ g ∈ groups, g.cluster = cluster →
        (∀ md ∈ g.perpMarkets, md.key ≠ address)
        ∧ (∀ md ∈ g.spotMarkets, md.key ≠ address)) := by
  intro groups
  induction groups with
  | nil => simp [IdsJsonMarketLookup.first_address_match]
  | cons g rest ih =>
    simp only [IdsJsonMarketLookup.first_address_match, List.mem_cons, forall_eq_or_imp]
    by_cases hcl : (g.cluster == cluster) = true
    · rw [if_pos hcl]
      have hclr : g.cluster = cluster := by simpa using hcl
      cases hp : g.perpMarkets.find? (fun md => md.key == address) with
      | some md =>
        constructor
        · intro h
          exact Option.noConfusion h
        · intro h
          exfalso
          have hpred := List.find?_some hp
          have hmem := List.mem_of_find?_eq_some hp
          exact (h.1 hclr).1 md hmem (by simpa using hpred)
      | none =>
        cases hs : g.spotMarkets.find? (fun md => md.key == address) with
        | some md =>
          constructor
          · intro h
            exact Option.noConfusion h
          · intro h
            exfalso
            have hpred := List.find?_some hs
            have hmem := List.mem_of_find?_eq_some hs
            exact (h.1 hclr).2 md hmem (by simpa using hpred)
        | none =>
          rw [ih]
          constructor
          · intro h
            refine ⟨fun _ => ⟨?_, ?_⟩, h⟩
            · intro md hmem
              have := List.find?_eq_none.mp hp md hmem
              simpa using this
            · intro md hmem
              have := List.find?_eq_none.mp hs md hmem
              simpa using this
          · intro h
            exact h.2
    · rw [if_neg hcl]
      rw [ih]
      have hclr : ¬ g.cluster = cluster := by simpa using hcl
      constructor
      · intro h
        exact ⟨fun hc => absurd hc hclr, h⟩
      · intro h
        exact h.2

/-- C9: `find_by_symbol` returns the market constructed from the first
registry entry of the active cluster whose name matches the symbol
case-insensitively, and `find_by_address` that of the first entry whose key
equals the address exactly; when no entry matches, both return `None`
without raising (the scans miss exactly when no entry matches). -/
theorem find_by_symbol_and_address_lookup (groups : List GroupData)
    (cluster symbol : String) (address : PublicKey) :
    (IdsJsonMarketLookup.find_by_symbol groups cluster symbol
      = (match IdsJsonMarketLookup.first_symbol_match cluster symbol groups with
         | none => Except.ok none
         | some (g, mt, md) => (IdsJsonMarketLookup.group_market mt g md).map some))
    ∧ (IdsJsonMarketLookup.first_symbol_match cluster symbol groups = none ↔
        ∀ g ∈ groups, g.cluster = cluster →
          (∀ md ∈ g.perpMarkets, md.name.toUpper ≠ symbol.toUpper)
          ∧ (∀ md ∈ g.spotMarkets, md.name.toUpper ≠ symbol.toUpper))
    ∧ (IdsJsonMarketLookup.find_by_address groups cluster address
      = (match IdsJsonMarketLookup.first_address_match cluster address groups with
         | none => Except.ok none
         | some (g, mt, md) => (IdsJsonMarketLookup.group_market mt g md).map some))
    ∧ (IdsJsonMarketLookup.first_address_match cluster address groups = none ↔
        ∀ g ∈ groups, g.cluster = cluster →
          (∀ md ∈ g.perpMarkets, md.key ≠ address)
          ∧ (∀ md ∈ g.spotMarkets, md.key ≠ address)) :=
  ⟨find_by_symbol_go_eq_first_match cluster symbol groups,
   first_symbol_match_none_iff cluster symbol groups,
   find_by_address_go_eq_first_match cluster address groups,
   first_address_match_none_iff cluster address groups⟩

/-- Witness for C9: the symbol `BTC/USDT` finds the first spot market of the
example group, and a missing address returns `None` without raising. -/
theorem find_by_symbol_and_address_witness :
    IdsJsonMarketLookup.find_by_symbol [exGroup] "mainnet" "BTC/USDT"
      = Except.ok (some exMarket1)
    ∧ IdsJsonMarketLookup.find_by_address [exGroup] "mainnet" "NoSuchAddress"
      = Except.ok none := by
  constructor
  · have h := (find_by_symbol_and_address_lookup [exGroup] "mainnet" "BTC/USDT" "x").1
    have hm : IdsJsonMarketLookup.first_symbol_match "mainnet" "BTC/USDT" [exGroup]
        = some (exGroup, IdsJsonMarketType.SPOT, exSpot1) := by
      simp [IdsJsonMarketLookup.first_symbol_match, exGroup, List.find?, exSpot1]
    rw [h, hm]
    rfl
  · have h := (find_by_symbol_and_address_lookup [exGroup] "mainnet" "x"
      "NoSuchAddress").2.2.1
    have hm : IdsJsonMarketLookup.first_address_match "mainnet" "NoSuchAddress" [exGroup]
        = none := by
      simp [IdsJsonMarketLookup.first_address_match, exGroup, List.find?, exSpot1, exSpot2]
    rw [h, hm]
